import Mathlib

/-!
Shallow embedding of the NovoApkPesca fishing-log backend (Flask + SQLAlchemy)
and verification of its specification claims.

Sources embedded:
  - src/routes/fishing_sessions.py  (create_session, update_session, delete_session)
  - src/routes/catches.py           (create_catch, get_catch)
  - src/routes/locations.py         (delete_location)
  - src/routes/stats.py             (get_overview_stats, get_location_stats,
                                     get_bait_stats, get_monthly_stats)
  - src/models/database.py          (entity shapes)

Modelling conventions:
  - ids are Nat (the code uses uuid strings; only equality of ids matters);
  - SQL / Python floats are modelled as Rat (exact arithmetic);
  - nullable columns are Option;
  - a JSON payload key that is absent (or falsy, where the code tests
    truthiness with `data.get(k)`) is modelled as `none`;
  - Python's `round` (banker's rounding, half to even) is modelled exactly
    on Rat;
  - SQL `SUM`/`AVG` return NULL on an empty (all-NULL) column, modelled as
    `Option`; `COUNT(col)` counts non-NULL values per joined row;
  - an SQL inner join is a flatMap producing one row per matching pair, so
    join fan-out (row duplication) is preserved faithfully.
-/

/-- Clock time as parsed by `datetime.strptime(s, '%H:%M')`:
an hour and a minute, no seconds. -/
structure TimeOfDay where
  hour : Nat
  minute : Nat
deriving DecidableEq, Repr

/-- Minutes since midnight; `datetime.combine` and `datetime` subtraction
reduce to arithmetic on this value because `%H:%M` times have zero seconds. -/
def TimeOfDay.toMinutes (t : TimeOfDay) : Nat := t.hour * 60 + t.minute

/-- A value `strptime '%H:%M'` can actually produce. -/
def TimeOfDay.valid (t : TimeOfDay) : Prop := t.hour < 24 ∧ t.minute < 60

instance (t : TimeOfDay) : Decidable t.valid := by
  unfold TimeOfDay.valid; infer_instance

/-- Calendar date as parsed by `datetime.strptime(s, '%Y-%m-%d')`. -/
structure Date where
  year : Nat
  month : Nat
  day : Nat
deriving DecidableEq, Repr

/-- Python `date` comparison: lexicographic on (year, month, day). -/
def Date.blt (a b : Date) : Bool :=
  a.year < b.year ||
    (a.year == b.year && (a.month < b.month ||
      (a.month == b.month && a.day < b.day)))

/-- Python `date` less-or-equal. -/
def Date.ble (a b : Date) : Bool := a.blt b || a == b

/-- Gregorian leap-year rule used by Python's `datetime`. -/
def isLeap (y : Nat) : Bool := (y % 4 == 0 && y % 100 != 0) || (y % 400 == 0)

/-- Number of days in a Gregorian month. -/
def daysInMonth (y m : Nat) : Nat :=
  if m == 2 then (if isLeap y then 29 else 28)
  else if m == 4 || m == 6 || m == 9 || m == 11 then 30
  else 31

/-- `d - timedelta(days := n)`: step back one Gregorian calendar day at a
time (to the previous day of the month, else to the last day of the
previous month, else to December 31 of the previous year). -/
def Date.subDays (d : Date) : Nat → Date
  | 0 => d
  | n + 1 =>
    if 1 < d.day then Date.subDays ⟨d.year, d.month, d.day - 1⟩ n
    else if 1 < d.month then
      Date.subDays ⟨d.year, d.month - 1, daysInMonth d.year (d.month - 1)⟩ n
    else Date.subDays ⟨d.year - 1, 12, 31⟩ n

/-- Month bucket of a date: `func.date_trunc('month', date)`, rendered by the
code as the string `month.strftime('%Y-%m')` and compared by string order.
For four-digit years the string order agrees with this numeric key. -/
def monthKey (d : Date) : Nat := d.year * 12 + (d.month - 1)

/-- Session duration in minutes, as computed in `create_session`
(fishing_sessions.py lines 77-84) and `update_session` (lines 178-185):
`start_datetime = combine(date, start)`, `end_datetime = combine(date, end)`;
if `end_datetime < start_datetime` then `end_datetime = combine(date+1day, end)`;
result `int((end_datetime - start_datetime).total_seconds() / 60)`.
Both instants share `date`, so the comparison is a comparison of the times and
the difference in minutes is the difference of times (+1440 in the overnight
branch); `%H:%M` times have zero seconds, so the division by 60 is exact and
`int` truncation does nothing. The date parameter is kept to mirror the
source signature even though the instants' common date cancels. -/
def durationMinutes (_date : Date) (start_time end_time : TimeOfDay) : Int :=
  if end_time.toMinutes < start_time.toMinutes then
    ((end_time.toMinutes : Int) + 1440) - (start_time.toMinutes : Int)
  else
    (end_time.toMinutes : Int) - (start_time.toMinutes : Int)

/-- Modelled from the spec (§4.2), in the spec's words: combine date+start
into a start instant and date+end into an end instant; if the end instant is
earlier than the start instant, add one day to the end instant only; the
duration is the difference in whole minutes, floored. -/
def specDurationMinutes (_date : Date) (start_time end_time : TimeOfDay) : Int :=
  let startInstant : Int := start_time.toMinutes
  let endInstant : Int :=
    if (end_time.toMinutes : Int) < (start_time.toMinutes : Int) then
      (end_time.toMinutes : Int) + 1440
    else (end_time.toMinutes : Int)
  endInstant - startInstant

/-- Row of the `locations` table (database.py, class Location).
Timestamps are omitted: no claim mentions them. -/
structure Location where
  id : Nat
  user_id : Nat
  name : String
  latitude : Rat
  longitude : Rat
  description : Option String
deriving DecidableEq, Repr

/-- Row of the `fishing_sessions` table (database.py, class FishingSession). -/
structure Session where
  id : Nat
  user_id : Nat
  location_id : Nat
  date : Date
  start_time : TimeOfDay
  end_time : TimeOfDay
  duration_minutes : Option Int
  weather_conditions : Option String
  temperature_celsius : Option Rat
  notes : Option String
deriving DecidableEq, Repr

/-- Row of the `catches` table (database.py, class Catch). -/
structure Catch where
  id : Nat
  session_id : Nat
  species : String
  weight_kg : Option Rat
  length_cm : Option Rat
  bait_used : Option String
  released : Bool
  photo_url : Option String
deriving DecidableEq, Repr

/-- The relational store, restricted to one authenticated context's relevant
tables (users appear only through their ids). -/
structure Store where
  locations : List Location
  sessions : List Session
  catches : List Catch
deriving DecidableEq, Repr

/-- HTTP outcome of a route: `ok status value` for a 2xx JSON body, or
`err status message` for an error body `{'error': message}`. -/
inductive Res (α : Type) where
  | ok : Nat → α → Res α
  | err : Nat → String → Res α
deriving DecidableEq, Repr

/-- JSON payload of POST /api/sessions/ after parsing: `none` models a key
that is absent or falsy (`data.get(k)` truthiness), values are the parsed
date/time objects (a parse failure returns 400 before any of the behaviour
modelled below and is not needed by any claim). -/
structure SessionCreateData where
  location_id : Option Nat
  date : Option Date
  start_time : Option TimeOfDay
  end_time : Option TimeOfDay
  weather_conditions : Option String
  temperature_celsius : Option Rat
  notes : Option String
deriving DecidableEq, Repr

/-- `create_session` (fishing_sessions.py lines 44-111): required-field
validation in source order, then the owner-scoped location lookup, then the
duration computation and the insert. `newId` stands for the generated uuid. -/
def create_session (st : Store) (uid : Nat) (data : SessionCreateData)
    (newId : Nat) : Res Session × Store :=
  match data.location_id with
  | none => (.err 400 "Local é obrigatório", st)
  | some lid =>
  match data.date with
  | none => (.err 400 "Data é obrigatória", st)
  | some d =>
  match data.start_time with
  | none => (.err 400 "Hora de início é obrigatória", st)
  | some t1 =>
  match data.end_time with
  | none => (.err 400 "Hora de término é obrigatória", st)
  | some t2 =>
  match st.locations.find? (fun l => l.id == lid && l.user_id == uid) with
  | none => (.err 404 "Local não encontrado", st)
  | some _ =>
    let s : Session :=
      { id := newId, user_id := uid, location_id := lid, date := d,
        start_time := t1, end_time := t2,
        duration_minutes := some (durationMinutes d t1 t2),
        weather_conditions := data.weather_conditions,
        temperature_celsius := data.temperature_celsius,
        notes := data.notes }
    (.ok 201 s, { st with sessions := st.sessions ++ [s] })

/-- JSON payload of PUT /api/sessions/{id}: the outer Option models key
presence, the inner value the (possibly null/falsy) content. `location_id`,
`date`, `start_time`, `end_time` carry parsed values when present (a present
null date/time raises an unmodelled 500; a present null location_id would
violate the NOT NULL column). For `temperature_celsius` the code maps a
falsy value to NULL, so the inner Option is the stored result. -/
structure SessionUpdateData where
  location_id : Option Nat
  date : Option Date
  start_time : Option TimeOfDay
  end_time : Option TimeOfDay
  weather_conditions : Option (Option String)
  temperature_celsius : Option (Option Rat)
  notes : Option (Option String)
deriving DecidableEq, Repr

/-- Field-by-field partial update of `update_session` (fishing_sessions.py
lines 161-175): each key present in the payload overwrites the field, keys
absent leave it untouched. -/
def applyUpdate (s : Session) (data : SessionUpdateData) : Session :=
  { s with
    location_id := data.location_id.getD s.location_id,
    date := data.date.getD s.date,
    start_time := data.start_time.getD s.start_time,
    end_time := data.end_time.getD s.end_time,
    weather_conditions :=
      match data.weather_conditions with
      | some v => v
      | none => s.weather_conditions,
    temperature_celsius :=
      match data.temperature_celsius with
      | some v => v
      | none => s.temperature_celsius,
    notes :=
      match data.notes with
      | some v => v
      | none => s.notes }

/-- `any(field in data for field in ['date', 'start_time', 'end_time'])`
(fishing_sessions.py line 178). -/
def touchesSchedule (data : SessionUpdateData) : Bool :=
  data.date.isSome || data.start_time.isSome || data.end_time.isSome

/-- The session as stored after `update_session`: partial update, then the
duration recomputation from the (possibly updated) date/start/end iff one of
the three keys was in the payload (fishing_sessions.py lines 178-185). -/
def updatedSession (s : Session) (data : SessionUpdateData) : Session :=
  let s1 := applyUpdate s data
  if touchesSchedule data then
    { s1 with duration_minutes := some (durationMinutes s1.date s1.start_time s1.end_time) }
  else s1

/-- `update_session` (fishing_sessions.py lines 138-198): owner-scoped
lookup, ownership check of a changed location, partial update with duration
recomputation. -/
def update_session (st : Store) (uid sid : Nat) (data : SessionUpdateData) :
    Res Session × Store :=
  match st.sessions.find? (fun s => s.id == sid && s.user_id == uid) with
  | none => (.err 404 "Sessão não encontrada", st)
  | some s =>
    let locCheckFails : Bool :=
      match data.location_id with
      | some lid =>
          lid != s.location_id &&
            (st.locations.find? (fun l => l.id == lid && l.user_id == uid)).isNone
      | none => false
    if locCheckFails then (.err 404 "Local não encontrado", st)
    else
      (.ok 200 (updatedSession s data),
        { st with sessions :=
            st.sessions.map (fun t =>
              if t.id == sid && t.user_id == uid then updatedSession s data else t) })

/-- `delete_session` (fishing_sessions.py lines 202-225): owner-scoped lookup,
then delete; the `catches` relationship has `cascade='all, delete-orphan'`,
so the session's catches are deleted with it. -/
def delete_session (st : Store) (uid sid : Nat) : Res Unit × Store :=
  match st.sessions.find? (fun s => s.id == sid && s.user_id == uid) with
  | none => (.err 404 "Sessão não encontrada", st)
  | some s =>
    (.ok 200 (),
      { st with
        sessions := st.sessions.filter (fun t => !(t.id == sid && t.user_id == uid)),
        catches := st.catches.filter (fun c => !(c.session_id == s.id)) })

/-- `delete_location` (locations.py lines 136-163): owner-scoped lookup, then
the explicit guard `if location.fishing_sessions` (the sessions pointing at
this location), then delete. -/
def delete_location (st : Store) (uid lid : Nat) : Res Unit × Store :=
  match st.locations.find? (fun l => l.id == lid && l.user_id == uid) with
  | none => (.err 404 "Local não encontrado", st)
  | some l =>
    if !(st.sessions.filter (fun s => s.location_id == l.id)).isEmpty then
      (.err 400 "Não é possível excluir este local pois há sessões de pesca associadas a ele", st)
    else
      (.ok 200 (),
        { st with locations := st.locations.filter (fun x => !(x.id == lid && x.user_id == uid)) })

/-- JSON payload of POST /api/catches/: `none` models an absent or falsy
required key; `released` is `bool(data.get('released', False))`. -/
structure CatchCreateData where
  session_id : Option Nat
  species : Option String
  weight_kg : Option Rat
  length_cm : Option Rat
  bait_used : Option String
  released : Bool
  photo_url : Option String
deriving DecidableEq, Repr

/-- `create_catch` (catches.py lines 52-95): required-field validation in
source order, owner-scoped session lookup, insert. -/
def create_catch (st : Store) (uid : Nat) (data : CatchCreateData)
    (newId : Nat) : Res Catch × Store :=
  match data.session_id with
  | none => (.err 400 "ID da sessão é obrigatório", st)
  | some sid =>
  match data.species with
  | none => (.err 400 "Espécie do peixe é obrigatória", st)
  | some sp =>
  match st.sessions.find? (fun s => s.id == sid && s.user_id == uid) with
  | none => (.err 404 "Sessão não encontrada", st)
  | some _ =>
    let c : Catch :=
      { id := newId, session_id := sid, species := sp,
        weight_kg := data.weight_kg, length_cm := data.length_cm,
        bait_used := data.bait_used, released := data.released,
        photo_url := data.photo_url }
    (.ok 201 c, { st with catches := st.catches ++ [c] })

/-- Floor of a rational to an integer (`q.num` and `q.den` are coprime with
positive denominator, so flooring is the floor division of num by den). -/
def ratFloor (q : Rat) : Int := Int.fdiv q.num (q.den : Int)

/-- Python's built-in `round` to an integer: round half to even. -/
def pyRoundInt (q : Rat) : Int :=
  let f := ratFloor q
  let frac := q - (f : Rat)
  if frac < 1/2 then f
  else if 1/2 < frac then f + 1
  else if f % 2 == 0 then f else f + 1

/-- Python `round(q, 1)`. -/
def pyRound1 (q : Rat) : Rat := (pyRoundInt (q * 10) : Rat) / 10

/-- Python `round(q, 2)`. -/
def pyRound2 (q : Rat) : Rat := (pyRoundInt (q * 100) : Rat) / 100

/-- SQL `SUM` over an integer column: NULL values are skipped and the sum of
no rows is NULL (SQLAlchemy `.scalar()` then yields `None`). -/
def sqlSumInt (l : List (Option Int)) : Option Int :=
  match l.filterMap id with
  | [] => none
  | xs => some xs.sum

/-- SQL `SUM` over a float column. -/
def sqlSumRat (l : List (Option Rat)) : Option Rat :=
  match l.filterMap id with
  | [] => none
  | xs => some xs.sum

/-- SQL `AVG` over a float column: NULL values are skipped, NULL on no rows. -/
def sqlAvgRat (l : List (Option Rat)) : Option Rat :=
  match l.filterMap id with
  | [] => none
  | xs => some (xs.sum / (xs.length : Rat))

/-- The user's sessions: `FishingSession.query.filter_by(user_id=...)`. -/
def userSessions (st : Store) (uid : Nat) : List Session :=
  st.sessions.filter (fun s => s.user_id == uid)

/-- The user's locations: `Location.query.filter_by(user_id=...)`. -/
def userLocations (st : Store) (uid : Nat) : List Location :=
  st.locations.filter (fun l => l.user_id == uid)

/-- `db.session.query(Catch).join(FishingSession).filter(FishingSession.user_id == uid)`:
one row per (catch, matching session) pair — join fan-out preserved. -/
def joinedCatches (st : Store) (uid : Nat) : List Catch :=
  st.catches.flatMap (fun c =>
    (st.sessions.filter (fun s => s.id == c.session_id && s.user_id == uid)).map
      (fun _ => c))

/-- The most recent session: `order_by(desc(date), desc(start_time)).first()`.
`laterThan a b` says b is strictly more recent than a. -/
def laterThan (a b : Session) : Bool :=
  a.date.blt b.date ||
    (a.date == b.date && a.start_time.toMinutes < b.start_time.toMinutes)

/-- First row of the sessions ordered by (date desc, start_time desc); ties
are broken arbitrarily by SQL, here by first position in the store. -/
def lastSession (l : List Session) : Option Session :=
  l.foldl (fun acc s =>
    match acc with
    | none => some s
    | some a => if laterThan a s then some s else some a) none

/-- Response body of GET /api/stats/overview. -/
structure Overview where
  total_sessions : Nat
  total_catches : Nat
  total_locations : Nat
  released_count : Nat
  kept_count : Int
  total_weight_kg : Rat
  total_hours : Rat
  last_session_date : Option Date
  last_session_location : Option String
deriving DecidableEq, Repr

/-- `get_overview_stats` (stats.py lines 11-63). `kept_count` is the Python
integer `total_catches - released_count`; `total_weight`/`total_minutes` are
SQL sums defaulted with `or 0`; `total_hours` is
`round(total_minutes / 60, 1) if total_minutes > 0 else 0`. -/
def overviewData (st : Store) (uid : Nat) : Overview :=
  let sess := userSessions st uid
  let joined := joinedCatches st uid
  let totalCatches := joined.length
  let releasedCount := (joined.filter (fun c => c.released)).length
  let totalWeight :=
    (sqlSumRat ((joined.filter (fun c => c.weight_kg.isSome)).map (fun c => c.weight_kg))).getD 0
  let totalMinutes :=
    (sqlSumInt ((sess.filter (fun s => s.duration_minutes.isSome)).map (fun s => s.duration_minutes))).getD 0
  let ls := lastSession sess
  { total_sessions := sess.length,
    total_catches := totalCatches,
    total_locations := (userLocations st uid).length,
    released_count := releasedCount,
    kept_count := (totalCatches : Int) - (releasedCount : Int),
    total_weight_kg := pyRound2 totalWeight,
    total_hours := if 0 < totalMinutes then pyRound1 ((totalMinutes : Rat) / 60) else 0,
    last_session_date := ls.map (fun s => s.date),
    last_session_location :=
      ls.bind (fun s => (st.locations.find? (fun l => l.id == s.location_id)).map (fun l => l.name)) }

/-- Route wrapper for GET /api/stats/overview: the queries cannot fail in
this model, so the route always answers 200 with the computed body. -/
def get_overview_stats (st : Store) (uid : Nat) : Res Overview :=
  .ok 200 (overviewData st uid)

/-- `get_catch` (catches.py lines 99-115): the catch joined to its session,
filtered by catch id and the authenticated user id. -/
def get_catch (st : Store) (uid cid : Nat) : Res Catch :=
  match (joinedCatches st uid).find? (fun c => c.id == cid) with
  | none => .err 404 "Captura não encontrada"
  | some c => .ok 200 c

/-- Insertion step of a descending sort by a Nat key (SQL `ORDER BY ... DESC`;
ties are in arbitrary SQL order, here a deterministic one). -/
def insertDescBy {α : Type} (key : α → Nat) (x : α) : List α → List α
  | [] => [x]
  | y :: ys => if key y < key x then x :: y :: ys else y :: insertDescBy key x ys

/-- Descending sort by a Nat key. -/
def sortDescBy {α : Type} (key : α → Nat) (l : List α) : List α :=
  l.foldr (insertDescBy key) []

/-- One element of the `bait_stats` response list. -/
structure BaitEntry where
  bait : String
  count : Nat
  avg_weight_kg : Option Rat
  released_count : Nat
  kept_count : Int
  success_rate : Rat
deriving DecidableEq, Repr

/-- `get_bait_stats` (stats.py lines 139-181). The grouped query joins the
user's catches, keeps non-NULL non-empty baits, groups by bait, orders by
count descending and applies LIMIT. The first result loop (line 164)
evaluates `round((count / total_catches * 100), 1)`, but `total_catches` is
a local variable first assigned at line 168: Python raises
UnboundLocalError on the first iteration, the blanket `except Exception`
catches it, and the route answers 500. Hence: a non-empty group list yields
the 500 error; an empty one falls through (the loop body never runs,
`total_catches` is then assigned, the second loop is a no-op) and yields
an empty 200 response. -/
def get_bait_stats (st : Store) (uid : Nat) (lim : Nat) : Res (List BaitEntry) :=
  let rows := (joinedCatches st uid).filter (fun c =>
    match c.bait_used with
    | none => false
    | some b => b != "")
  let baits := (rows.filterMap (fun c => c.bait_used)).dedup
  let groups := sortDescBy (fun g => g.2.length)
    (baits.map (fun b => (b, rows.filter (fun c => c.bait_used == some b))))
  if (groups.take lim).isEmpty then .ok 200 []
  else .err 500 "UnboundLocalError: total_catches"

/-- One element of the `location_stats` response list. -/
structure LocEntry where
  location_id : Nat
  location_name : String
  sessions_count : Nat
  catches_count : Nat
  total_hours : Rat
  avg_weight_kg : Option Rat
deriving DecidableEq, Repr

/-- Join rows contributing to one location's group in `get_location_stats`:
`Location OUTER JOIN FishingSession ON location_id OUTER JOIN Catch ON
session_id`. A location with no sessions contributes one all-NULL row; a
session contributes one row per catch (or one row with a NULL catch). Note
the session side is matched by `location_id` only — no user filter. -/
def locRows (st : Store) (l : Location) : List (Option Session × Option Catch) :=
  let ss := st.sessions.filter (fun s => s.location_id == l.id)
  if ss.isEmpty then [(none, none)]
  else ss.flatMap (fun s =>
    let cs := st.catches.filter (fun c => c.session_id == s.id)
    if cs.isEmpty then [(some s, none)] else cs.map (fun c => (some s, some c)))

/-- One grouped row of `get_location_stats` (stats.py lines 107-128):
`COUNT(FishingSession.id)`, `COUNT(Catch.id)`, `SUM(duration_minutes)` and
`AVG(weight_kg)` are taken over the join rows (so a session is counted once
per catch — fan-out); `total_hours` applies Python truthiness
(`if total_minutes`), and `avg_weight_kg` likewise (`if avg_weight`). -/
def locEntry (st : Store) (l : Location) : LocEntry :=
  let rows := locRows st l
  let totalMinutes := sqlSumInt (rows.map (fun r => r.1.bind (fun s => s.duration_minutes)))
  let avgWeight := sqlAvgRat (rows.map (fun r => r.2.bind (fun c => c.weight_kg)))
  { location_id := l.id,
    location_name := l.name,
    sessions_count := (rows.filter (fun r => r.1.isSome)).length,
    catches_count := (rows.filter (fun r => r.2.isSome)).length,
    total_hours :=
      match totalMinutes with
      | none => 0
      | some m => if m == 0 then 0 else pyRound1 ((m : Rat) / 60),
    avg_weight_kg :=
      match avgWeight with
      | none => none
      | some a => if a == 0 then none else some (pyRound2 a) }

/-- `get_location_stats` (stats.py lines 103-135): one group per location of
the user (GROUP BY Location.id — ids are primary keys), ordered descending
by the (fan-out) session count. -/
def locationStatsData (st : Store) (uid : Nat) : List LocEntry :=
  sortDescBy (fun e => e.sessions_count)
    ((userLocations st uid).map (fun l => locEntry st l))

/-- Route wrapper for GET /api/stats/locations. -/
def get_location_stats (st : Store) (uid : Nat) : Res (List LocEntry) :=
  .ok 200 (locationStatsData st uid)

/-- One element of the `monthly_stats` response list; `month` is the
`monthKey` of the `'%Y-%m'` bucket string. -/
structure MonthEntry where
  month : Nat
  sessions_count : Nat
  total_hours : Rat
  catches_count : Nat
  total_weight_kg : Rat
deriving DecidableEq, Repr

/-- Insertion into an ascending duplicate-free list of month keys. -/
def insertAsc (m : Nat) : List Nat → List Nat
  | [] => [m]
  | x :: xs => if m < x then m :: x :: xs else if m == x then x :: xs else x :: insertAsc m xs

/-- Ascending duplicate-free sort of month keys: the SQL `GROUP BY month
ORDER BY month` produces one row per distinct month in ascending order, and
the final `monthly_list.sort` keeps that order. -/
def sortedMonths (l : List Nat) : List Nat := l.foldr insertAsc []

/-- The user's sessions passing the date filter
`FishingSession.date >= twelve_months_ago` (note: no upper bound). -/
def sessionsInWindow (st : Store) (uid : Nat) (now : Date) : List Session :=
  st.sessions.filter (fun s => s.user_id == uid && (now.subDays 365).ble s.date)

/-- Join rows of the monthly catches query: one (session month, catch) pair
per catch of the user joined to its session passing the date filter. -/
def catchRowsInWindow (st : Store) (uid : Nat) (now : Date) : List (Nat × Catch) :=
  st.catches.flatMap (fun c =>
    (st.sessions.filter (fun s =>
        s.id == c.session_id && s.user_id == uid && (now.subDays 365).ble s.date)).map
      (fun s => (monthKey s.date, c)))

/-- The response entry assembled for one month bucket. -/
def monthEntry (sessIn : List Session) (catchRows : List (Nat × Catch)) (m : Nat) :
    MonthEntry :=
  let ms := sessIn.filter (fun s => monthKey s.date == m)
  let mc := catchRows.filter (fun r => r.1 == m)
  { month := m,
    sessions_count := ms.length,
    total_hours :=
      match sqlSumInt (ms.map (fun s => s.duration_minutes)) with
      | none => 0
      | some tm => if tm == 0 then 0 else pyRound1 ((tm : Rat) / 60),
    catches_count := mc.length,
    total_weight_kg :=
      match sqlSumRat (mc.map (fun r => r.2.weight_kg)) with
      | none => 0
      | some w => if w == 0 then 0 else pyRound2 w }

/-- `get_monthly_stats` (stats.py lines 185-239). `twelve_months_ago` is
`now - timedelta(days=365)`; both grouped queries filter
`FishingSession.date >= twelve_months_ago` (no upper bound). The session
query groups the user's sessions by month; the catch query groups the
user's catches (joined to their sessions) by the session's month. The
result dict is keyed by the session months; catch data is merged only for
months already present (`if month_str in monthly_data`), and the final list
is sorted by month. `total_hours` and `total_weight_kg` apply Python
truthiness (`if total_minutes`, `if total_weight`). -/
def monthlyData (st : Store) (uid : Nat) (now : Date) : List MonthEntry :=
  (sortedMonths ((sessionsInWindow st uid now).map (fun s => monthKey s.date))).map
    (monthEntry (sessionsInWindow st uid now) (catchRowsInWindow st uid now))

/-- Route wrapper for GET /api/stats/monthly. -/
def get_monthly_stats (st : Store) (uid : Nat) (now : Date) : Res (List MonthEntry) :=
  .ok 200 (monthlyData st uid now)

/-- Whether a catch is (transitively) owned by the user: some session row
matches its `session_id` and carries the user's id. -/
def ownedCatchB (st : Store) (uid : Nat) (c : Catch) : Bool :=
  st.sessions.any (fun s => s.id == c.session_id && s.user_id == uid)

/-- The rows owned by one user: their locations, their sessions, and the
catches of their sessions. -/
def userView (st : Store) (uid : Nat) : Store :=
  { locations := userLocations st uid,
    sessions := userSessions st uid,
    catches := st.catches.filter (ownedCatchB st uid) }

/-- Store well-formedness, maintained by the API: location and session ids
are primary keys (no duplicates), and every session's location exists and
belongs to the session's user (create_session/update_session verify this
before writing `location_id`). -/
def WF (st : Store) : Prop :=
  (st.locations.map (fun l => l.id)).Nodup ∧
  (st.sessions.map (fun s => s.id)).Nodup ∧
  ∀ s ∈ st.sessions, ∃ l ∈ st.locations, l.id = s.location_id ∧ l.user_id = s.user_id

instance (st : Store) : Decidable (WF st) := by
  unfold WF; infer_instance

/-- Boolean strict ascent of a list of month keys ("strictly ascending with
no duplicates"). -/
def strictAscB : List Nat → Bool
  | [] => true
  | [_] => true
  | a :: b :: t => decide (a < b) && strictAscB (b :: t)

/-! ## Inversion lemmas for the mutating routes -/

/-- The session literal inserted by a successful `create_session`. -/
def createdSession (uid : Nat) (lid : Nat) (d : Date) (t1 t2 : TimeOfDay)
    (data : SessionCreateData) (newId : Nat) : Session :=
  { id := newId, user_id := uid, location_id := lid, date := d,
    start_time := t1, end_time := t2,
    duration_minutes := some (durationMinutes d t1 t2),
    weather_conditions := data.weather_conditions,
    temperature_celsius := data.temperature_celsius,
    notes := data.notes }

theorem create_session_ok (st : Store) (uid : Nat) (data : SessionCreateData)
    (newId : Nat) (s : Session) (st' : Store)
    (h : create_session st uid data newId = (.ok 201 s, st')) :
    ∃ lid d t1 t2,
      data.location_id = some lid ∧ data.date = some d ∧
      data.start_time = some t1 ∧ data.end_time = some t2 ∧
      (st.locations.find? (fun l => l.id == lid && l.user_id == uid)).isSome ∧
      s = createdSession uid lid d t1 t2 data newId ∧
      st' = { st with sessions := st.sessions ++ [s] } := by
  unfold create_session at h
  repeat' split at h
  any_goals (injection h with h1 h2; exact Res.noConfusion h1)
  rename_i _ lid hl _ d hd _ t1 ht1 _ t2 ht2 _ loc hf
  simp only at h
  have hs : s = createdSession uid lid d t1 t2 data newId := by
    have hfst := congrArg Prod.fst h
    simp only [createdSession] at hfst ⊢
    exact (Res.ok.inj hfst).2.symm
  subst hs
  have hst : st' = { st with sessions := st.sessions ++ [createdSession uid lid d t1 t2 data newId] } := by
    have hsnd := congrArg Prod.snd h
    simp only at hsnd
    exact hsnd.symm
  exact ⟨lid, d, t1, t2, hl, hd, ht1, ht2, by rw [hf]; rfl, rfl, hst⟩

theorem update_session_ok (st : Store) (uid sid : Nat) (data : SessionUpdateData)
    (s : Session) (st' : Store)
    (h : update_session st uid sid data = (.ok 200 s, st')) :
    ∃ s0, st.sessions.find? (fun t => t.id == sid && t.user_id == uid) = some s0 ∧
      s = updatedSession s0 data ∧
      st' = { st with sessions := st.sessions.map (fun t =>
        if t.id == sid && t.user_id == uid then updatedSession s0 data else t) } := by
  unfold update_session at h
  simp only at h
  repeat' split at h
  any_goals (injection h with h1 h2; exact Res.noConfusion h1)
  rename_i s0 hf hnot
  injection h with h1 h2
  exact ⟨s0, hf, (Res.ok.inj h1).2.symm, h2.symm⟩

theorem delete_location_inv (st : Store) (uid lid : Nat) :
    (∀ l, st.locations.find? (fun x => x.id == lid && x.user_id == uid) = some l →
      (st.sessions.filter (fun s => s.location_id == l.id)).isEmpty = false →
      delete_location st uid lid =
        (.err 400 "Não é possível excluir este local pois há sessões de pesca associadas a ele", st)) ∧
    (∀ r st', delete_location st uid lid = (.ok 200 r, st') →
      ∃ l, st.locations.find? (fun x => x.id == lid && x.user_id == uid) = some l ∧
        (st.sessions.filter (fun s => s.location_id == l.id)).isEmpty = true ∧
        st' = { st with locations := st.locations.filter (fun x => !(x.id == lid && x.user_id == uid)) }) := by
  constructor
  · intro l hf hne
    unfold delete_location
    rw [hf]
    simp [hne]
  · intro r st' h
    unfold delete_location at h
    repeat' split at h
    any_goals (injection h with h1 h2; exact Res.noConfusion h1)
    rename_i l hf hne
    injection h with h1 h2
    refine ⟨l, hf, ?_, h2.symm⟩
    cases he : (st.sessions.filter (fun s => s.location_id == l.id)).isEmpty
    · rw [he] at hne; simp at hne
    · rfl

theorem delete_session_inv (st : Store) (uid sid : Nat) (r : Unit) (st' : Store)
    (h : delete_session st uid sid = (.ok 200 r, st')) :
    ∃ s0, st.sessions.find? (fun t => t.id == sid && t.user_id == uid) = some s0 ∧
      st' = { st with
        sessions := st.sessions.filter (fun t => !(t.id == sid && t.user_id == uid)),
        catches := st.catches.filter (fun c => !(c.session_id == s0.id)) } := by
  unfold delete_session at h
  repeat' split at h
  any_goals (injection h with h1 h2; exact Res.noConfusion h1)
  rename_i s0 hf
  injection h with h1 h2
  exact ⟨s0, hf, h2.symm⟩

/-- The catch literal inserted by a successful `create_catch`. -/
def createdCatch (sid : Nat) (sp : String) (data : CatchCreateData) (newId : Nat) : Catch :=
  { id := newId, session_id := sid, species := sp,
    weight_kg := data.weight_kg, length_cm := data.length_cm,
    bait_used := data.bait_used, released := data.released,
    photo_url := data.photo_url }

theorem create_catch_ok (st : Store) (uid : Nat) (data : CatchCreateData)
    (newId : Nat) (c : Catch) (st' : Store)
    (h : create_catch st uid data newId = (.ok 201 c, st')) :
    ∃ sid sp,
      data.session_id = some sid ∧ data.species = some sp ∧
      (st.sessions.find? (fun s => s.id == sid && s.user_id == uid)).isSome ∧
      c = createdCatch sid sp data newId ∧
      st' = { st with catches := st.catches ++ [c] } := by
  unfold create_catch at h
  repeat' split at h
  any_goals (injection h with h1 h2; exact Res.noConfusion h1)
  rename_i _ sid hsid _ sp hsp _ s0 hf
  simp only at h
  have hc : c = createdCatch sid sp data newId := by
    have hfst := congrArg Prod.fst h
    simp only [createdCatch] at hfst ⊢
    exact (Res.ok.inj hfst).2.symm
  subst hc
  have hst : st' = { st with catches := st.catches ++ [createdCatch sid sp data newId] } := by
    have hsnd := congrArg Prod.snd h
    simp only at hsnd
    exact hsnd.symm
  exact ⟨sid, sp, hsid, hsp, by rw [hf]; rfl, rfl, hst⟩

/-! ## Field lemmas for `updatedSession` -/

theorem updatedSession_date (s : Session) (d : SessionUpdateData) :
    (updatedSession s d).date = d.date.getD s.date := by
  unfold updatedSession
  cases h : touchesSchedule d <;> simp [h, applyUpdate]

theorem updatedSession_start (s : Session) (d : SessionUpdateData) :
    (updatedSession s d).start_time = d.start_time.getD s.start_time := by
  unfold updatedSession
  cases h : touchesSchedule d <;> simp [h, applyUpdate]

theorem updatedSession_end (s : Session) (d : SessionUpdateData) :
    (updatedSession s d).end_time = d.end_time.getD s.end_time := by
  unfold updatedSession
  cases h : touchesSchedule d <;> simp [h, applyUpdate]

theorem updatedSession_loc (s : Session) (d : SessionUpdateData) :
    (updatedSession s d).location_id = d.location_id.getD s.location_id := by
  unfold updatedSession
  cases h : touchesSchedule d <;> simp [h, applyUpdate]

theorem updatedSession_id (s : Session) (d : SessionUpdateData) :
    (updatedSession s d).id = s.id := by
  unfold updatedSession
  cases h : touchesSchedule d <;> simp [h, applyUpdate]

theorem updatedSession_user (s : Session) (d : SessionUpdateData) :
    (updatedSession s d).user_id = s.user_id := by
  unfold updatedSession
  cases h : touchesSchedule d <;> simp [h, applyUpdate]

theorem updatedSession_weather (s : Session) (d : SessionUpdateData) :
    (updatedSession s d).weather_conditions =
      match d.weather_conditions with
      | some v => v
      | none => s.weather_conditions := by
  unfold updatedSession
  cases h : touchesSchedule d <;> simp [h, applyUpdate]

theorem updatedSession_temp (s : Session) (d : SessionUpdateData) :
    (updatedSession s d).temperature_celsius =
      match d.temperature_celsius with
      | some v => v
      | none => s.temperature_celsius := by
  unfold updatedSession
  cases h : touchesSchedule d <;> simp [h, applyUpdate]

theorem updatedSession_notes (s : Session) (d : SessionUpdateData) :
    (updatedSession s d).notes =
      match d.notes with
      | some v => v
      | none => s.notes := by
  unfold updatedSession
  cases h : touchesSchedule d <;> simp [h, applyUpdate]

theorem updatedSession_dur_touched (s : Session) (d : SessionUpdateData)
    (h : touchesSchedule d = true) :
    (updatedSession s d).duration_minutes =
      some (durationMinutes (updatedSession s d).date (updatedSession s d).start_time
        (updatedSession s d).end_time) := by
  unfold updatedSession
  simp [h]

theorem updatedSession_dur_untouched (s : Session) (d : SessionUpdateData)
    (h : touchesSchedule d = false) :
    (updatedSession s d).duration_minutes = s.duration_minutes := by
  unfold updatedSession
  simp [h, applyUpdate]

/-- Non-negativity and upper bound of the computed duration for valid times. -/
theorem durationMinutes_bounds (d : Date) (t1 t2 : TimeOfDay)
    (h1 : t1.valid) (h2 : t2.valid) :
    0 ≤ durationMinutes d t1 t2 ∧ durationMinutes d t1 t2 < 1440 := by
  obtain ⟨ha, hb⟩ := h1
  obtain ⟨hc, hd⟩ := h2
  unfold durationMinutes TimeOfDay.toMinutes at *
  constructor <;> split <;> omega

/-! ## Sample data for witnesses -/

def sampleLoc : Location :=
  { id := 1, user_id := 7, name := "Lago Azul", latitude := 1, longitude := 2,
    description := none }

def sampleSession : Session :=
  { id := 3, user_id := 7, location_id := 1, date := ⟨2024, 5, 10⟩,
    start_time := ⟨22, 0⟩, end_time := ⟨2, 0⟩, duration_minutes := some 240,
    weather_conditions := none, temperature_celsius := none, notes := none }

def sampleCatch : Catch :=
  { id := 4, session_id := 3, species := "Tucunare", weight_kg := none,
    length_cm := none, bait_used := some "minhoca", released := false,
    photo_url := none }

def sampleStore : Store :=
  { locations := [sampleLoc], sessions := [sampleSession], catches := [sampleCatch] }

def sampleCreateData : SessionCreateData :=
  { location_id := some 1, date := some ⟨2024, 5, 10⟩, start_time := some ⟨22, 0⟩,
    end_time := some ⟨2, 0⟩, weather_conditions := none,
    temperature_celsius := none, notes := none }

/-! ## C1 -/

/-- C1: for every session stored by `create_session`, and by `update_session`
when the payload touches date, start time or end time, the stored
`duration_minutes` is the whole-minute difference between the combined
date+start and date+end instants with one day added to the end instant when
it is earlier (the code formula `durationMinutes`); that formula coincides
with the spec formula `specDurationMinutes`, and start 22:00 with end 02:00
gives 240 minutes. -/
theorem c1_duration_create_update :
    (∀ st uid data newId s st',
      create_session st uid data newId = (.ok 201 s, st') →
      s ∈ st'.sessions ∧
      s.duration_minutes = some (durationMinutes s.date s.start_time s.end_time)) ∧
    (∀ st uid sid data s st',
      update_session st uid sid data = (.ok 200 s, st') →
      touchesSchedule data = true →
      s.duration_minutes = some (durationMinutes s.date s.start_time s.end_time)) ∧
    (∀ d t1 t2, durationMinutes d t1 t2 = specDurationMinutes d t1 t2) ∧
    durationMinutes ⟨2024, 5, 10⟩ ⟨22, 0⟩ ⟨2, 0⟩ = 240 := by
  refine ⟨?_, ?_, ?_, by decide⟩
  · intro st uid data newId s st' h
    obtain ⟨lid, d, t1, t2, _, _, _, _, _, hs, hst⟩ := create_session_ok _ _ _ _ _ _ h
    subst hs hst
    exact ⟨List.mem_append_right _ (List.mem_singleton.mpr rfl), rfl⟩
  · intro st uid sid data s st' h ht
    obtain ⟨s0, _, hs, _⟩ := update_session_ok _ _ _ _ _ _ h
    subst hs
    exact updatedSession_dur_touched s0 data ht
  · intro d t1 t2
    simp only [durationMinutes, specDurationMinutes]
    split <;> split <;> omega

/-- Session inserted by the witness create below. -/
def c1NewSession : Session :=
  createdSession 7 1 ⟨2024, 5, 10⟩ ⟨22, 0⟩ ⟨2, 0⟩ sampleCreateData 42

/-- Store after the witness create below. -/
def c1NewStore : Store :=
  { sampleStore with sessions := sampleStore.sessions ++ [c1NewSession] }

/-- Witness for C1: the theorem applied to a concrete create on `sampleStore`. -/
theorem c1_duration_witness :
    c1NewSession ∈ c1NewStore.sessions ∧
    c1NewSession.duration_minutes =
      some (durationMinutes c1NewSession.date c1NewSession.start_time c1NewSession.end_time) :=
  c1_duration_create_update.1 sampleStore 7 sampleCreateData 42 c1NewSession c1NewStore rfl

/-! ## C10 -/

/-- C10: the stored duration of any session successfully created, or updated
with the schedule touched, satisfies 0 ≤ duration < 1440 whenever its start
and end times are valid `%H:%M` values (which is all `strptime` can produce);
equal start and end give 0, not 1440; and any sum of non-negative stored
durations as taken by the statistics queries is non-negative. -/
theorem c10_duration_range :
    (∀ d t1 t2, t1.valid → t2.valid →
      0 ≤ durationMinutes d t1 t2 ∧ durationMinutes d t1 t2 < 1440) ∧
    (∀ d t, durationMinutes d t t = 0) ∧
    (∀ st uid data newId s st',
      create_session st uid data newId = (.ok 201 s, st') →
      s.start_time.valid → s.end_time.valid →
      ∃ dm, s.duration_minutes = some dm ∧ 0 ≤ dm ∧ dm < 1440) ∧
    (∀ st uid sid data s st',
      update_session st uid sid data = (.ok 200 s, st') →
      touchesSchedule data = true →
      s.start_time.valid → s.end_time.valid →
      ∃ dm, s.duration_minutes = some dm ∧ 0 ≤ dm ∧ dm < 1440) ∧
    (∀ l : List Session,
      (∀ s ∈ l, ∀ dm, s.duration_minutes = some dm → 0 ≤ dm) →
      0 ≤ (sqlSumInt (l.map (fun s => s.duration_minutes))).getD 0) := by
  refine ⟨durationMinutes_bounds, ?_, ?_, ?_, ?_⟩
  · intro d t
    simp [durationMinutes]
  · intro st uid data newId s st' h hv1 hv2
    obtain ⟨lid, d, t1, t2, _, _, _, _, _, hs, _⟩ := create_session_ok _ _ _ _ _ _ h
    subst hs
    exact ⟨_, rfl, durationMinutes_bounds d t1 t2 hv1 hv2⟩
  · intro st uid sid data s st' h ht hv1 hv2
    obtain ⟨s0, _, hs, _⟩ := update_session_ok _ _ _ _ _ _ h
    subst hs
    refine ⟨_, updatedSession_dur_touched s0 data ht, ?_⟩
    exact durationMinutes_bounds _ _ _ hv1 hv2
  · intro l hl
    unfold sqlSumInt
    split
    · simp
    · rename_i xs hxs
      simp only [Option.getD_some]
      apply List.sum_nonneg
      intro x hx
      obtain ⟨a, ha, hax⟩ := List.mem_filterMap.mp hx
      obtain ⟨s, hsl, hsa⟩ := List.mem_map.mp ha
      exact hl s hsl x (by rw [hsa]; exact hax)

/-- Witness for C10: the theorem applied at a concrete valid overnight
session (22:00 to 02:00), a concrete degenerate one, and a concrete list. -/
theorem c10_duration_witness :
    (0 ≤ durationMinutes ⟨2024, 5, 10⟩ ⟨22, 0⟩ ⟨2, 0⟩ ∧
      durationMinutes ⟨2024, 5, 10⟩ ⟨22, 0⟩ ⟨2, 0⟩ < 1440) ∧
    (∃ dm, c1NewSession.duration_minutes = some dm ∧ 0 ≤ dm ∧ dm < 1440) ∧
    0 ≤ (sqlSumInt ([sampleSession].map (fun s => s.duration_minutes))).getD 0 :=
  ⟨c10_duration_range.1 ⟨2024, 5, 10⟩ ⟨22, 0⟩ ⟨2, 0⟩ (by decide) (by decide),
   c10_duration_range.2.2.1 sampleStore 7 sampleCreateData 42 c1NewSession c1NewStore rfl
     (by decide) (by decide),
   c10_duration_range.2.2.2.2 [sampleSession] (by decide)⟩

/-! ## C7 -/

/-- C7: a session update applies exactly the keys present in the payload:
every field whose key is absent keeps its prior value, and when none of
date/start_time/end_time is present the stored duration is unchanged; id
and owner never change, and no other table is touched. -/
theorem c7_partial_update_frame :
    ∀ st uid sid data s0 s st',
      st.sessions.find? (fun t => t.id == sid && t.user_id == uid) = some s0 →
      update_session st uid sid data = (.ok 200 s, st') →
      (data.date = none → s.date = s0.date) ∧
      (data.start_time = none → s.start_time = s0.start_time) ∧
      (data.end_time = none → s.end_time = s0.end_time) ∧
      (data.location_id = none → s.location_id = s0.location_id) ∧
      (data.weather_conditions = none → s.weather_conditions = s0.weather_conditions) ∧
      (data.temperature_celsius = none → s.temperature_celsius = s0.temperature_celsius) ∧
      (data.notes = none → s.notes = s0.notes) ∧
      (data.date = none → data.start_time = none → data.end_time = none →
        s.duration_minutes = s0.duration_minutes) ∧
      s.id = s0.id ∧ s.user_id = s0.user_id ∧
      st'.locations = st.locations ∧ st'.catches = st.catches := by
  intro st uid sid data s0 s st' hf h
  obtain ⟨s0', hf', hs, hst⟩ := update_session_ok _ _ _ _ _ _ h
  rw [hf] at hf'
  injection hf' with he
  subst he
  subst hs
  subst hst
  refine ⟨?_, ?_, ?_, ?_, ?_, ?_, ?_, ?_, updatedSession_id s0 data,
    updatedSession_user s0 data, rfl, rfl⟩
  · intro hd; rw [updatedSession_date, hd]; rfl
  · intro hd; rw [updatedSession_start, hd]; rfl
  · intro hd; rw [updatedSession_end, hd]; rfl
  · intro hd; rw [updatedSession_loc, hd]; rfl
  · intro hd; rw [updatedSession_weather, hd]
  · intro hd; rw [updatedSession_temp, hd]
  · intro hd; rw [updatedSession_notes, hd]
  · intro h1 h2 h3
    exact updatedSession_dur_untouched s0 data (by simp [touchesSchedule, h1, h2, h3])

/-- Payload of the C7 witness: only `notes` is present. -/
def c7NotesData : SessionUpdateData :=
  { location_id := none, date := none, start_time := none, end_time := none,
    weather_conditions := none, temperature_celsius := none,
    notes := some (some "vento forte") }

/-- Witness for C7: updating `sampleStore`'s session with only a `notes` key
leaves date, times and duration unchanged. -/
theorem c7_partial_update_witness :
    (updatedSession sampleSession c7NotesData).date = sampleSession.date ∧
    (updatedSession sampleSession c7NotesData).start_time = sampleSession.start_time ∧
    (updatedSession sampleSession c7NotesData).duration_minutes = sampleSession.duration_minutes :=
  by
  have h := c7_partial_update_frame sampleStore 7 3 c7NotesData sampleSession
    (updatedSession sampleSession c7NotesData)
    { sampleStore with sessions := sampleStore.sessions.map (fun t =>
        if t.id == 3 && t.user_id == 7 then updatedSession sampleSession c7NotesData else t) }
    (by decide) rfl
  exact ⟨h.1 rfl, h.2.1 rfl, h.2.2.2.2.2.2.2.1 rfl rfl rfl⟩

/-! ## C6 -/

/-- C6: deleting a location that has at least one associated session answers
the 400 conflict error and leaves the store (the location and its sessions
included) unchanged; a successful delete implies the location had zero
sessions, and it removes only that location row. -/
theorem c6_delete_location_guard :
    ∀ st uid lid,
      (∀ l, st.locations.find? (fun x => x.id == lid && x.user_id == uid) = some l →
        (∃ s ∈ st.sessions, s.location_id = l.id) →
        delete_location st uid lid =
          (.err 400 "Não é possível excluir este local pois há sessões de pesca associadas a ele", st)) ∧
      (∀ r st', delete_location st uid lid = (.ok 200 r, st') →
        (∀ s ∈ st.sessions, s.location_id ≠ lid) ∧
        st'.sessions = st.sessions ∧ st'.catches = st.catches ∧
        st'.locations = st.locations.filter (fun x => !(x.id == lid && x.user_id == uid))) := by
  intro st uid lid
  constructor
  · intro l hf hex
    apply (delete_location_inv st uid lid).1 l hf
    obtain ⟨s, hs, hsl⟩ := hex
    rcases he : (st.sessions.filter (fun t => t.location_id == l.id)).isEmpty with _ | _
    · exact he
    · exfalso
      rw [List.isEmpty_iff] at he
      have : s ∈ st.sessions.filter (fun t => t.location_id == l.id) :=
        List.mem_filter.mpr ⟨hs, by simp [hsl]⟩
      rw [he] at this
      exact List.not_mem_nil s this
  · intro r st' h
    obtain ⟨l, hf, hemp, hst⟩ := (delete_location_inv st uid lid).2 r st' h
    have hlid : l.id = lid := by
      have hp := List.find?_some hf
      simp only [Bool.and_eq_true, beq_iff_eq] at hp
      exact hp.1
    refine ⟨?_, by rw [hst], by rw [hst], by rw [hst]⟩
    intro s hs hcontra
    rw [List.isEmpty_iff] at hemp
    have : s ∈ st.sessions.filter (fun t => t.location_id == l.id) :=
      List.mem_filter.mpr ⟨hs, by simp [hcontra, hlid]⟩
    rw [hemp] at this
    exact List.not_mem_nil s this

/-- Witness for C6: on `sampleStore`, deleting location 1 (which has session
3 attached) as user 7 answers 400 and leaves the store unchanged. -/
theorem c6_delete_location_witness :
    delete_location sampleStore 7 1 =
      (.err 400 "Não é possível excluir este local pois há sessões de pesca associadas a ele",
        sampleStore) :=
  (c6_delete_location_guard sampleStore 7 1).1 sampleLoc (by decide)
    ⟨sampleSession, by decide, by decide⟩

/-! ## C8 -/

/-- Counterexample to C8 as stated: a create-session payload referencing the
absent location 99 but missing the required `date` answers the generic 400
validation error "Data é obrigatória", not the 404 the claim requires for
every create whose parent is absent. (The store is empty, so location 99 is
certainly absent.) -/
theorem c8_counterexample :
    create_session { locations := [], sessions := [], catches := [] } 7
      { location_id := some 99, date := none, start_time := none, end_time := none,
        weather_conditions := none, temperature_celsius := none, notes := none } 1 =
      (.err 400 "Data é obrigatória", { locations := [], sessions := [], catches := [] }) := by
  rfl

/-- C8 (amended): for every create of a session or catch whose payload has
all its required fields present and whose referenced parent (location for a
session, session for a catch) is absent from the store or owned by a
different user, the operation answers 404 and leaves the store unchanged
(no entity is created). -/
theorem c8_parent_not_found :
    (∀ st uid data newId lid,
      data.location_id = some lid →
      data.date.isSome = true → data.start_time.isSome = true → data.end_time.isSome = true →
      (∀ l ∈ st.locations, l.id = lid → l.user_id ≠ uid) →
      create_session st uid data newId = (.err 404 "Local não encontrado", st)) ∧
    (∀ st uid data newId sid,
      data.session_id = some sid → data.species.isSome = true →
      (∀ s ∈ st.sessions, s.id = sid → s.user_id ≠ uid) →
      create_catch st uid data newId = (.err 404 "Sessão não encontrada", st)) := by
  constructor
  · intro st uid data newId lid hlid hd h1 h2 habs
    obtain ⟨d, hd⟩ := Option.isSome_iff_exists.mp hd
    obtain ⟨t1, h1⟩ := Option.isSome_iff_exists.mp h1
    obtain ⟨t2, h2⟩ := Option.isSome_iff_exists.mp h2
    have hfind : st.locations.find? (fun l => l.id == lid && l.user_id == uid) = none := by
      rw [List.find?_eq_none]
      intro l hl
      simp only [Bool.and_eq_true, beq_iff_eq, not_and]
      intro hid
      exact habs l hl hid
    unfold create_session
    rw [hlid, hd, h1, h2]
    simp [hfind]
  · intro st uid data newId sid hsid hsp habs
    obtain ⟨sp, hsp⟩ := Option.isSome_iff_exists.mp hsp
    have hfind : st.sessions.find? (fun s => s.id == sid && s.user_id == uid) = none := by
      rw [List.find?_eq_none]
      intro s hs
      simp only [Bool.and_eq_true, beq_iff_eq, not_and]
      intro hid
      exact habs s hs hid
    unfold create_catch
    rw [hsid, hsp]
    simp [hfind]

/-- Witness for C8 (amended): on `sampleStore`, a complete create-session
payload naming the absent location 99, and a complete create-catch payload
naming session 3 issued by the wrong user 8, both answer 404 and change
nothing. -/
theorem c8_parent_not_found_witness :
    create_session sampleStore 7
      { location_id := some 99, date := some ⟨2024, 5, 10⟩, start_time := some ⟨8, 0⟩,
        end_time := some ⟨9, 0⟩, weather_conditions := none, temperature_celsius := none,
        notes := none } 50 =
      (.err 404 "Local não encontrado", sampleStore) ∧
    create_catch sampleStore 8
      { session_id := some 3, species := some "Dourado", weight_kg := none,
        length_cm := none, bait_used := none, released := false, photo_url := none } 51 =
      (.err 404 "Sessão não encontrada", sampleStore) :=
  ⟨c8_parent_not_found.1 sampleStore 7 _ 50 99 rfl rfl rfl rfl (by decide),
   c8_parent_not_found.2 sampleStore 8 _ 51 3 rfl rfl (by decide)⟩

/-! ## C2 -/

/-- C2 (code bug): `get_bait_stats` evaluates `total_catches` in its first
result loop (stats.py line 164) before the variable is assigned (line 168),
so Python raises UnboundLocalError and the route answers 500 whenever the
user has at least one catch with a non-empty bait — here user 7 on
`sampleStore`, whose single catch uses bait "minhoca". The claimed
success-rate computation is never delivered. When there is no bait row the
loop body never runs and the route answers 200 with an empty list, so the
zero-catch edge produces no division error only vacuously. -/
theorem c2_bait_stats_crash :
    get_bait_stats sampleStore 7 10 = .err 500 "UnboundLocalError: total_catches" ∧
    get_bait_stats { locations := [], sessions := [], catches := [] } 7 10 = .ok 200 [] := by
  constructor <;> rfl

/-! ## C3 -/

/-- Store exhibiting the join fan-out of `get_location_stats`: one location,
one session (60 minutes) with two catches. -/
def c3Store : Store :=
  { locations := [sampleLoc],
    sessions := [{ sampleSession with duration_minutes := some 60 }],
    catches := [sampleCatch, { sampleCatch with id := 5 }] }

/-- C3 (code bug): with one session holding two catches, the
Location-Session-Catch outer join yields two rows for the session, so
`COUNT(FishingSession.id)` reports `sessions_count = 2` (and the duration is
summed twice) although the user has exactly one session at the location —
the claimed per-location session count is wrong whenever a session has more
than one catch. -/
theorem c3_location_stats_fanout :
    ((locationStatsData c3Store 7).map (fun e => (e.location_id, e.sessions_count, e.catches_count)) =
      [(1, 2, 2)]) ∧
    (c3Store.sessions.filter (fun s => s.location_id == sampleLoc.id)).length = 1 := by
  constructor <;> rfl

/-! ## C4 -/

/-- Store exhibiting the missing upper date bound of `get_monthly_stats`:
one session dated 2027-03-05, "now" being 2026-10-12. -/
def c4Store : Store :=
  { locations := [sampleLoc],
    sessions := [{ sampleSession with date := ⟨2027, 3, 5⟩ }],
    catches := [] }

set_option maxRecDepth 10000 in
/-- Counterexample to C4 as stated: the date filter is only
`date >= now - 365 days` with no upper bound, so a future-dated session
produces a monthly entry for 2027-03, a month strictly after the month of
"now" (2026-10-12) and hence outside [now − 365 days, now]. -/
theorem c4_counterexample :
    (monthlyData c4Store 7 ⟨2026, 10, 12⟩).map (fun e => e.month) = [monthKey ⟨2027, 3, 5⟩] ∧
    monthKey ⟨2026, 10, 12⟩ < monthKey ⟨2027, 3, 5⟩ := by
  constructor
  · rfl
  · decide

theorem strictAscB_cons (a b : Nat) (l : List Nat) :
    strictAscB (a :: b :: l) = (decide (a < b) && strictAscB (b :: l)) := rfl

theorem mem_insertAsc (m x : Nat) (l : List Nat) :
    x ∈ insertAsc m l ↔ x = m ∨ x ∈ l := by
  induction l with
  | nil => simp [insertAsc]
  | cons y ys ih =>
    unfold insertAsc
    by_cases h1 : m < y
    · simp [h1]
    · by_cases h2 : m = y
      · have h2' : (m == y) = true := by simp [h2]
        subst h2
        simp only [if_neg h1, h2', if_pos rfl, if_true, List.mem_cons]
        tauto
      · have h2' : (m == y) = false := by simp [h2]
        simp only [if_neg h1, h2', Bool.false_eq_true, if_false, List.mem_cons, ih]
        tauto

theorem strictAscB_cons_insert (y m : Nat) (l : List Nat) (hym : y < m)
    (h : strictAscB (y :: l) = true) : strictAscB (y :: insertAsc m l) = true := by
  induction l generalizing y with
  | nil =>
    simp [insertAsc, strictAscB_cons, hym, strictAscB]
  | cons z zs ih =>
    rw [strictAscB_cons] at h
    simp only [Bool.and_eq_true, decide_eq_true_eq] at h
    obtain ⟨hyz, hzs⟩ := h
    unfold insertAsc
    by_cases h1 : m < z
    · simp only [if_pos h1, strictAscB_cons]
      simp [hym, h1, hzs]
    · by_cases h2 : m = z
      · have h2' : (m == z) = true := by simp [h2]
        simp only [if_neg h1, h2', if_pos rfl, if_true, strictAscB_cons]
        simp [hyz, hzs]
      · have h2' : (m == z) = false := by simp [h2]
        simp only [if_neg h1, h2', Bool.false_eq_true, if_false, strictAscB_cons]
        have hrec := ih z (by omega) hzs
        simp [hyz, hrec]

theorem strictAscB_insertAsc (m : Nat) (l : List Nat) (h : strictAscB l = true) :
    strictAscB (insertAsc m l) = true := by
  cases l with
  | nil => rfl
  | cons y ys =>
    unfold insertAsc
    by_cases h1 : m < y
    · simp only [if_pos h1, strictAscB_cons]
      simp [h1, h]
    · by_cases h2 : m = y
      · have h2' : (m == y) = true := by simp [h2]
        simp only [if_neg h1, h2', if_pos rfl, if_true]
        exact h
      · have h2' : (m == y) = false := by simp [h2]
        simp only [if_neg h1, h2', Bool.false_eq_true, if_false]
        exact strictAscB_cons_insert y m ys (by omega) h

theorem strictAscB_sortedMonths (l : List Nat) : strictAscB (sortedMonths l) = true := by
  unfold sortedMonths
  induction l with
  | nil => rfl
  | cons x xs ih => exact strictAscB_insertAsc x _ ih

theorem mem_sortedMonths (x : Nat) (l : List Nat) : x ∈ sortedMonths l ↔ x ∈ l := by
  unfold sortedMonths
  induction l with
  | nil => simp
  | cons y ys ih =>
    simp only [List.foldr_cons, mem_insertAsc, List.mem_cons, ih]
    try tauto

theorem monthEntry_month (a : List Session) (b : List (Nat × Catch)) (m : Nat) :
    (monthEntry a b m).month = m := rfl

theorem map_month_monthEntry (a : List Session) (b : List (Nat × Catch)) (ms : List Nat) :
    (ms.map (monthEntry a b)).map (fun e => e.month) = ms := by
  induction ms with
  | nil => rfl
  | cons x xs ih => simp only [List.map_cons, monthEntry_month, ih]

/-- C4 (amended): the monthly breakdown has exactly one entry for each
calendar month containing at least one of the user's sessions dated on or
after now − 365 days (equivalently: one session or one catch in that range,
since every catch inherits its session's date); entry months are strictly
ascending with no duplicates. Entries are therefore bounded below by the
month of the cutoff, but NOT bounded above by "now": the query has no upper
date bound, so future-dated sessions yield months after now
(see the counterexample). -/
theorem c4_monthly_months :
    ∀ st uid now,
      strictAscB ((monthlyData st uid now).map (fun e => e.month)) = true ∧
      (∀ e ∈ monthlyData st uid now, ∃ s ∈ st.sessions,
        s.user_id = uid ∧ (now.subDays 365).ble s.date = true ∧ monthKey s.date = e.month) ∧
      (∀ s ∈ st.sessions, s.user_id = uid → (now.subDays 365).ble s.date = true →
        ∃ e ∈ monthlyData st uid now, e.month = monthKey s.date) ∧
      (∀ c ∈ st.catches, ∀ s ∈ st.sessions, s.id = c.session_id → s.user_id = uid →
        (now.subDays 365).ble s.date = true →
        ∃ e ∈ monthlyData st uid now, e.month = monthKey s.date) := by
  intro st uid now
  have hmem : ∀ s, s ∈ sessionsInWindow st uid now ↔
      s ∈ st.sessions ∧ s.user_id = uid ∧ (now.subDays 365).ble s.date = true := by
    intro s
    unfold sessionsInWindow
    rw [List.mem_filter]
    simp [Bool.and_eq_true]
  have hinc : ∀ s ∈ st.sessions, s.user_id = uid → (now.subDays 365).ble s.date = true →
      ∃ e ∈ monthlyData st uid now, e.month = monthKey s.date := by
    intro s hs hu hd
    unfold monthlyData
    refine ⟨monthEntry (sessionsInWindow st uid now) (catchRowsInWindow st uid now)
      (monthKey s.date), ?_, rfl⟩
    apply List.mem_map_of_mem
    rw [mem_sortedMonths]
    exact List.mem_map_of_mem _ ((hmem s).mpr ⟨hs, hu, hd⟩)
  refine ⟨?_, ?_, hinc, ?_⟩
  · unfold monthlyData
    rw [map_month_monthEntry]
    exact strictAscB_sortedMonths _
  · intro e he
    unfold monthlyData at he
    obtain ⟨m, hm, hme⟩ := List.mem_map.mp he
    rw [mem_sortedMonths] at hm
    obtain ⟨s, hsin, hsm⟩ := List.mem_map.mp hm
    obtain ⟨hs, hu, hd⟩ := (hmem s).mp hsin
    exact ⟨s, hs, hu, hd, by rw [hsm, ← hme, monthEntry_month]⟩
  · intro c _ s hs _ hu hd
    exact hinc s hs hu hd

/-- Store for the C4 witness: one session inside the trailing-365-day
window of now = 2026-10-12. -/
def c4bStore : Store :=
  { locations := [sampleLoc],
    sessions := [{ sampleSession with date := ⟨2026, 5, 10⟩ }],
    catches := [] }

set_option maxRecDepth 10000 in
/-- Witness for C4 (amended): applied at `c4bStore`, whose session dated
2026-05-10 is inside the window of now = 2026-10-12. -/
theorem c4_monthly_witness :
    ∃ e ∈ monthlyData c4bStore 7 ⟨2026, 10, 12⟩, e.month = monthKey ⟨2026, 5, 10⟩ :=
  (c4_monthly_months c4bStore 7 ⟨2026, 10, 12⟩).2.2.1
    { sampleSession with date := ⟨2026, 5, 10⟩ }
    (by decide) (by decide) (by decide)

/-! ## Rounding and sum helpers -/

theorem ratFloor_intCast (n : Int) : ratFloor (n : Rat) = n := by
  unfold ratFloor
  rw [Rat.num_intCast, Rat.den_intCast, Nat.cast_one, Int.fdiv_eq_ediv n (by norm_num),
    Int.ediv_one]

theorem pyRoundInt_intCast (n : Int) : pyRoundInt (n : Rat) = n := by
  unfold pyRoundInt
  rw [ratFloor_intCast]
  norm_num

theorem pyRound1_intCast (n : Int) : pyRound1 ((n : Int) : Rat) = (n : Rat) := by
  unfold pyRound1
  have h : ((n : Rat) * 10) = ((n * 10 : Int) : Rat) := by push_cast; ring
  rw [h, pyRoundInt_intCast]
  push_cast
  ring

theorem pyRound2_intCast (n : Int) : pyRound2 ((n : Int) : Rat) = (n : Rat) := by
  unfold pyRound2
  have h : ((n : Rat) * 100) = ((n * 100 : Int) : Rat) := by push_cast; ring
  rw [h, pyRoundInt_intCast]
  push_cast
  ring

theorem pyRound1_zero : pyRound1 0 = 0 := by
  have := pyRound1_intCast 0
  simpa using this

theorem pyRound2_zero : pyRound2 0 = 0 := by
  have := pyRound2_intCast 0
  simpa using this

theorem sqlSumInt_getD (l : List (Option Int)) :
    (sqlSumInt l).getD 0 = (l.filterMap id).sum := by
  unfold sqlSumInt
  split
  · rename_i h; rw [h]; rfl
  · rfl

theorem filterMap_duration (l : List Session) :
    ((l.filter (fun s => s.duration_minutes.isSome)).map
      (fun s => s.duration_minutes)).filterMap id
      = l.filterMap (fun s => s.duration_minutes) := by
  induction l with
  | nil => rfl
  | cons s ss ih =>
    by_cases h : s.duration_minutes.isSome
    · obtain ⟨d, hd⟩ := Option.isSome_iff_exists.mp h
      simp [List.filter_cons, h, hd, List.filterMap_cons, ih]
    · have h' : s.duration_minutes = none := Option.not_isSome_iff_eq_none.mp h
      simp [List.filter_cons, h, h', List.filterMap_cons, ih]

/-! ## C5 -/

/-- C5: the overview always answers 200; kept + released = total catches and
every count is non-negative (`kept_count` is the only subtraction);
`total_weight_kg` is 0 when the user has no joined catches and
`total_hours` is 0 when the user has no sessions (never null, never an
error); and whenever the stored durations are non-negative (which the API
guarantees), `total_hours` equals the sum of the non-null durations divided
by 60 and rounded to one decimal. -/
theorem c5_overview_invariants :
    ∀ st uid,
      get_overview_stats st uid = .ok 200 (overviewData st uid) ∧
      (overviewData st uid).kept_count + ((overviewData st uid).released_count : Int) =
        ((overviewData st uid).total_catches : Int) ∧
      0 ≤ (overviewData st uid).kept_count ∧
      (joinedCatches st uid = [] → (overviewData st uid).total_weight_kg = 0) ∧
      (userSessions st uid = [] → (overviewData st uid).total_hours = 0) ∧
      ((∀ s ∈ userSessions st uid, ∀ dm, s.duration_minutes = some dm → 0 ≤ dm) →
        (overviewData st uid).total_hours =
          pyRound1 ((((((userSessions st uid).filterMap (fun s => s.duration_minutes)).sum : Int) : Rat)) / 60)) := by
  intro st uid
  refine ⟨rfl, ?_, ?_, ?_, ?_, ?_⟩
  · show ((joinedCatches st uid).length : Int) -
        ((joinedCatches st uid).filter (fun c => c.released)).length +
        ((joinedCatches st uid).filter (fun c => c.released)).length =
        ((joinedCatches st uid).length : Int)
    ring
  · show (0 : Int) ≤ ((joinedCatches st uid).length : Int) -
        ((joinedCatches st uid).filter (fun c => c.released)).length
    have := List.length_filter_le (fun c => c.released) (joinedCatches st uid)
    omega
  · intro hj
    show pyRound2 ((sqlSumRat (((joinedCatches st uid).filter
      (fun c => c.weight_kg.isSome)).map (fun c => c.weight_kg))).getD 0) = 0
    rw [hj]
    show pyRound2 ((sqlSumRat []).getD 0) = 0
    exact pyRound2_zero
  · intro hs
    show (if 0 < (sqlSumInt ((( userSessions st uid).filter
        (fun s => s.duration_minutes.isSome)).map (fun s => s.duration_minutes))).getD 0
      then _ else 0) = 0
    rw [hs]
    rfl
  · intro hpos
    have hsum : (sqlSumInt (((userSessions st uid).filter
        (fun s => s.duration_minutes.isSome)).map (fun s => s.duration_minutes))).getD 0 =
        ((userSessions st uid).filterMap (fun s => s.duration_minutes)).sum := by
      rw [sqlSumInt_getD, filterMap_duration]
    have hnn : 0 ≤ ((userSessions st uid).filterMap (fun s => s.duration_minutes)).sum := by
      apply List.sum_nonneg
      intro x hx
      obtain ⟨s, hsl, hsa⟩ := List.mem_filterMap.mp hx
      exact hpos s hsl x hsa
    show (if 0 < (sqlSumInt (((userSessions st uid).filter
        (fun s => s.duration_minutes.isSome)).map (fun s => s.duration_minutes))).getD 0
      then pyRound1 (((sqlSumInt (((userSessions st uid).filter
        (fun s => s.duration_minutes.isSome)).map (fun s => s.duration_minutes))).getD 0 : Rat) / 60)
      else 0) = pyRound1 ((((((userSessions st uid).filterMap (fun s => s.duration_minutes)).sum : Int) : Rat)) / 60)
    rw [hsum]
    rcases lt_or_eq_of_le hnn with hlt | heq
    · rw [if_pos hlt]
    · rw [if_neg (by omega), ← heq]
      norm_num [pyRound1_zero]

/-- Witness for C5: the theorem applied to user 7 on `sampleStore` (which
has a 240-minute session, so the non-negativity hypothesis holds). -/
theorem c5_overview_witness :
    get_overview_stats sampleStore 7 = .ok 200 (overviewData sampleStore 7) ∧
    (overviewData sampleStore 7).total_hours =
      pyRound1 ((((((userSessions sampleStore 7).filterMap (fun s => s.duration_minutes)).sum : Int) : Rat)) / 60) :=
  ⟨(c5_overview_invariants sampleStore 7).1,
   (c5_overview_invariants sampleStore 7).2.2.2.2.2 (by decide)⟩

/-! ## Generic list lemmas for the owner-scoping proofs -/

theorem flatMap_filter_eq {α β : Type} (p : α → Bool) (f : α → List β) (l : List α)
    (h : ∀ a, p a = false → f a = []) : (l.filter p).flatMap f = l.flatMap f := by
  induction l with
  | nil => rfl
  | cons x xs ih =>
    by_cases hx : p x
    · rw [List.filter_cons_of_pos hx, List.flatMap_cons, List.flatMap_cons, ih]
    · rw [List.filter_cons_of_neg (by simp [hx]), List.flatMap_cons,
        h x (by simp [hx]), List.nil_append, ih]

theorem flatMap_congr {α β : Type} (f g : α → List β) (l : List α)
    (h : ∀ a ∈ l, f a = g a) : l.flatMap f = l.flatMap g := by
  induction l with
  | nil => rfl
  | cons x xs ih =>
    rw [List.flatMap_cons, List.flatMap_cons, h x (List.mem_cons_self x xs),
      ih (fun a ha => h a (List.mem_cons_of_mem x ha))]

theorem filter_map_id {α : Type} (p : α → Bool) (f : α → α) (l : List α)
    (h : ∀ a ∈ l, (p a = true → f a = a) ∧ p (f a) = p a) :
    (l.map f).filter p = l.filter p := by
  induction l with
  | nil => rfl
  | cons x xs ih =>
    have hx := h x (List.mem_cons_self x xs)
    have ihx := ih (fun a ha => h a (List.mem_cons_of_mem x ha))
    rw [List.map_cons]
    by_cases hp : p x
    · rw [List.filter_cons_of_pos (by rw [hx.2]; exact hp), List.filter_cons_of_pos hp,
        hx.1 hp, ihx]
    · rw [List.filter_cons_of_neg (by rw [hx.2]; simp [hp]),
        List.filter_cons_of_neg (by simp [hp]), ihx]

theorem find?_unique {α : Type} (p : α → Bool) (l : List α) (a : α)
    (ha : a ∈ l) (hpa : p a = true)
    (huniq : ∀ b ∈ l, p b = true → b = a) : l.find? p = some a := by
  induction l with
  | nil => cases ha
  | cons x xs ih =>
    by_cases hx : p x
    · rw [List.find?_cons_of_pos _ hx]
      rw [huniq x (List.mem_cons_self x xs) hx]
    · rw [List.find?_cons_of_neg _ hx]
      apply ih
      · rcases List.mem_cons.mp ha with h | h
        · subst h; exact absurd hpa (by simp [hx])
        · exact h
      · intro b hb hpb
        exact huniq b (List.mem_cons_of_mem x hb) hpb

/-! ## The read operations depend only on the user's own rows -/

/-- The catch-session join over the rows of a user view. -/
def viewJoinedCatches (v : Store) : List Catch :=
  v.catches.flatMap (fun c =>
    (v.sessions.filter (fun s => s.id == c.session_id)).map (fun _ => c))

theorem inner_sessions_filter (st : Store) (uid : Nat) (c : Catch) :
    st.sessions.filter (fun s => s.id == c.session_id && s.user_id == uid) =
      (userView st uid).sessions.filter (fun s => s.id == c.session_id) := by
  show _ = (st.sessions.filter (fun s => s.user_id == uid)).filter (fun s => s.id == c.session_id)
  rw [List.filter_filter]

theorem view_sessions_filter_nil (st : Store) (uid : Nat) (c : Catch)
    (hc : ownedCatchB st uid c = false) :
    (userView st uid).sessions.filter (fun s => s.id == c.session_id) = [] := by
  rw [← inner_sessions_filter]
  rw [List.filter_eq_nil_iff]
  intro s hs
  intro hcontra
  have : st.sessions.any (fun s => s.id == c.session_id && s.user_id == uid) = true :=
    List.any_eq_true.mpr ⟨s, hs, hcontra⟩
  rw [ownedCatchB] at hc
  rw [this] at hc
  cases hc

theorem joinedCatches_eq_view (st : Store) (uid : Nat) :
    joinedCatches st uid = viewJoinedCatches (userView st uid) := by
  unfold joinedCatches viewJoinedCatches
  have step1 : st.catches.flatMap (fun c =>
      (st.sessions.filter (fun s => s.id == c.session_id && s.user_id == uid)).map (fun _ => c)) =
      st.catches.flatMap (fun c =>
      ((userView st uid).sessions.filter (fun s => s.id == c.session_id)).map (fun _ => c)) := by
    apply flatMap_congr
    intro c _
    rw [inner_sessions_filter]
  rw [step1]
  have step2 := flatMap_filter_eq (ownedCatchB st uid)
    (fun c => ((userView st uid).sessions.filter (fun s => s.id == c.session_id)).map (fun _ => c))
    st.catches
    (fun c hc => by
      show ((userView st uid).sessions.filter (fun s => s.id == c.session_id)).map
        (fun _ => c) = []
      rw [view_sessions_filter_nil st uid c hc]
      rfl)
  exact step2.symm

theorem lastSession_mem (l : List Session) (s : Session) (h : lastSession l = some s) :
    s ∈ l := by
  unfold lastSession at h
  suffices haux : ∀ (acc : Option Session),
      l.foldl (fun acc t =>
        match acc with
        | none => some t
        | some a => if laterThan a t then some t else some a) acc = some s →
      s ∈ l ∨ acc = some s by
    rcases haux none h with hin | hacc
    · exact hin
    · cases hacc
  clear h
  induction l with
  | nil => intro acc h; exact Or.inr h
  | cons x xs ih =>
    intro acc h
    rw [List.foldl_cons] at h
    rcases ih _ h with hin | hstep
    · exact Or.inl (List.mem_cons_of_mem x hin)
    · rcases acc with _ | a
      · simp only at hstep
        injection hstep with he
        exact Or.inl (he ▸ List.mem_cons_self x xs)
      · simp only at hstep
        by_cases hl : laterThan a x
        · rw [if_pos hl] at hstep
          injection hstep with he
          exact Or.inl (he ▸ List.mem_cons_self x xs)
        · rw [if_neg hl] at hstep
          exact Or.inr hstep

theorem mem_userSessions (st : Store) (uid : Nat) (s : Session)
    (h : s ∈ userSessions st uid) : s ∈ st.sessions ∧ s.user_id = uid := by
  unfold userSessions at h
  have := List.mem_filter.mp h
  exact ⟨this.1, by simpa using this.2⟩

theorem mem_userLocations (st : Store) (uid : Nat) (l : Location)
    (h : l ∈ userLocations st uid) : l ∈ st.locations ∧ l.user_id = uid := by
  unfold userLocations at h
  have := List.mem_filter.mp h
  exact ⟨this.1, by simpa using this.2⟩

/-- Under well-formedness, looking a session's location up in the full table
gives the same answer as looking it up among the user's own locations. -/
theorem find_loc_eq_view (st : Store) (uid : Nat) (hwf : WF st) (s : Session)
    (hs : s ∈ userSessions st uid) :
    st.locations.find? (fun l => l.id == s.location_id) =
      (userView st uid).locations.find? (fun l => l.id == s.location_id) := by
  obtain ⟨hsm, hsu⟩ := mem_userSessions st uid s hs
  obtain ⟨hnl, _, hown⟩ := hwf
  obtain ⟨l0, hl0m, hl0id, hl0u⟩ := hown s hsm
  have huniq : ∀ b ∈ st.locations, (b.id == s.location_id) = true → b = l0 := by
    intro b hb hbid
    exact List.inj_on_of_nodup_map hnl hb hl0m
      (by rw [beq_iff_eq] at hbid; rw [hbid, hl0id])
  have h1 : st.locations.find? (fun l => l.id == s.location_id) = some l0 :=
    find?_unique _ _ l0 hl0m (by simp [hl0id]) huniq
  have hl0v : l0 ∈ (userView st uid).locations := by
    show l0 ∈ st.locations.filter (fun l => l.user_id == uid)
    exact List.mem_filter.mpr ⟨hl0m, by simp [hl0u, hsu]⟩
  have h2 : (userView st uid).locations.find? (fun l => l.id == s.location_id) = some l0 := by
    apply find?_unique _ _ l0 hl0v (by simp [hl0id])
    intro b hb hbid
    have hbm : b ∈ st.locations := (List.mem_filter.mp hb).1
    exact huniq b hbm hbid
  rw [h1, h2]

theorem overviewData_eq (u : Nat) (st1 st2 : Store) (h1 : WF st1) (h2 : WF st2)
    (hv : userView st1 u = userView st2 u) : overviewData st1 u = overviewData st2 u := by
  have hsess : userSessions st1 u = userSessions st2 u := congrArg Store.sessions hv
  have hloc : userLocations st1 u = userLocations st2 u := congrArg Store.locations hv
  have hjoin : joinedCatches st1 u = joinedCatches st2 u := by
    rw [joinedCatches_eq_view, joinedCatches_eq_view, hv]
  unfold overviewData
  simp only [hsess, hloc, hjoin]
  cases hls : lastSession (userSessions st2 u) with
  | none => rfl
  | some s =>
    have hmem2 : s ∈ userSessions st2 u := lastSession_mem _ _ hls
    have hmem1 : s ∈ userSessions st1 u := by rw [hsess]; exact hmem2
    have hfind : st1.locations.find? (fun l => l.id == s.location_id) =
        st2.locations.find? (fun l => l.id == s.location_id) := by
      rw [find_loc_eq_view st1 u h1 s hmem1, find_loc_eq_view st2 u h2 s hmem2, hv]
    simp only [Option.bind_eq_bind, Option.some_bind, hfind]

theorem sessionsInWindow_eq_view (st : Store) (uid : Nat) (now : Date) :
    sessionsInWindow st uid now =
      (userView st uid).sessions.filter (fun s => (now.subDays 365).ble s.date) := by
  show st.sessions.filter _ =
    (st.sessions.filter (fun s => s.user_id == uid)).filter (fun s => (now.subDays 365).ble s.date)
  rw [List.filter_filter]
  apply List.filter_congr
  intro s _
  exact Bool.and_comm _ _

theorem catchRowsInWindow_eq_view (st : Store) (uid : Nat) (now : Date) :
    catchRowsInWindow st uid now =
      (userView st uid).catches.flatMap (fun c =>
        ((userView st uid).sessions.filter (fun s =>
          s.id == c.session_id && (now.subDays 365).ble s.date)).map
          (fun s => (monthKey s.date, c))) := by
  have hinner : ∀ c : Catch,
      st.sessions.filter (fun s =>
        s.id == c.session_id && s.user_id == uid && (now.subDays 365).ble s.date) =
      (userView st uid).sessions.filter (fun s =>
        s.id == c.session_id && (now.subDays 365).ble s.date) := by
    intro c
    show _ = (st.sessions.filter (fun s => s.user_id == uid)).filter
      (fun s => s.id == c.session_id && (now.subDays 365).ble s.date)
    rw [List.filter_filter]
    apply List.filter_congr
    intro s _
    cases hsi : (s.id == c.session_id) <;> cases hsu : (s.user_id == uid) <;>
      cases hsb : ((now.subDays 365).ble s.date) <;> rfl
  have hnil : ∀ c, ownedCatchB st uid c = false →
      ((userView st uid).sessions.filter (fun s =>
        s.id == c.session_id && (now.subDays 365).ble s.date)).map
        (fun s => (monthKey s.date, c)) = [] := by
    intro c hc
    have hfil := view_sessions_filter_nil st uid c hc
    rw [List.filter_eq_nil_iff] at hfil
    have : (userView st uid).sessions.filter (fun s =>
        s.id == c.session_id && (now.subDays 365).ble s.date) = [] := by
      rw [List.filter_eq_nil_iff]
      intro s hs hcontra
      exact hfil s hs (Bool.and_eq_true_iff.mp hcontra).1
    rw [this]
    rfl
  unfold catchRowsInWindow
  have step1 : st.catches.flatMap (fun c =>
      (st.sessions.filter (fun s =>
        s.id == c.session_id && s.user_id == uid && (now.subDays 365).ble s.date)).map
        (fun s => (monthKey s.date, c))) =
      st.catches.flatMap (fun c =>
      ((userView st uid).sessions.filter (fun s =>
        s.id == c.session_id && (now.subDays 365).ble s.date)).map
        (fun s => (monthKey s.date, c))) := by
    apply flatMap_congr
    intro c _
    rw [hinner]
  rw [step1]
  exact (flatMap_filter_eq (ownedCatchB st uid) _ st.catches hnil).symm

theorem monthlyData_eq (u : Nat) (st1 st2 : Store)
    (hv : userView st1 u = userView st2 u) (now : Date) :
    monthlyData st1 u now = monthlyData st2 u now := by
  have hs : sessionsInWindow st1 u now = sessionsInWindow st2 u now := by
    rw [sessionsInWindow_eq_view, sessionsInWindow_eq_view, hv]
  have hc : catchRowsInWindow st1 u now = catchRowsInWindow st2 u now := by
    rw [catchRowsInWindow_eq_view, catchRowsInWindow_eq_view, hv]
  unfold monthlyData
  rw [hs, hc]

theorem get_bait_stats_eq (u : Nat) (st1 st2 : Store)
    (hv : userView st1 u = userView st2 u) (lim : Nat) :
    get_bait_stats st1 u lim = get_bait_stats st2 u lim := by
  have hjoin : joinedCatches st1 u = joinedCatches st2 u := by
    rw [joinedCatches_eq_view, joinedCatches_eq_view, hv]
  unfold get_bait_stats
  rw [hjoin]

theorem get_catch_eq (u : Nat) (st1 st2 : Store)
    (hv : userView st1 u = userView st2 u) (cid : Nat) :
    get_catch st1 u cid = get_catch st2 u cid := by
  have hjoin : joinedCatches st1 u = joinedCatches st2 u := by
    rw [joinedCatches_eq_view, joinedCatches_eq_view, hv]
  unfold get_catch
  rw [hjoin]

/-- The location-stats join rows computed over a user view. -/
def viewLocRows (v : Store) (l : Location) : List (Option Session × Option Catch) :=
  let ss := v.sessions.filter (fun s => s.location_id == l.id)
  if ss.isEmpty then [(none, none)]
  else ss.flatMap (fun s =>
    let cs := v.catches.filter (fun c => c.session_id == s.id)
    if cs.isEmpty then [(some s, none)] else cs.map (fun c => (some s, some c)))

theorem locRows_eq_view (st : Store) (uid : Nat) (hwf : WF st) (l : Location)
    (hl : l ∈ userLocations st uid) :
    locRows st l = viewLocRows (userView st uid) l := by
  obtain ⟨hlm, hlu⟩ := mem_userLocations st uid l hl
  obtain ⟨hnl, hns, hown⟩ := hwf
  have hsesspt : ∀ s ∈ st.sessions,
      (s.location_id == l.id) = ((s.location_id == l.id) && (s.user_id == uid)) := by
    intro s hs
    cases hsl : (s.location_id == l.id)
    · rfl
    · obtain ⟨l0, hl0m, hl0id, hl0u⟩ := hown s hs
      have hll : l0 = l :=
        List.inj_on_of_nodup_map hnl hl0m hlm
          (by rw [hl0id]; exact (by simpa using hsl : s.location_id = l.id))
      have hsu : s.user_id = uid := by
        rw [← hl0u, hll, hlu]
      simp [hsu]
  have hss : st.sessions.filter (fun s => s.location_id == l.id) =
      (userView st uid).sessions.filter (fun s => s.location_id == l.id) := by
    show _ = (st.sessions.filter (fun s => s.user_id == uid)).filter
      (fun s => s.location_id == l.id)
    rw [List.filter_filter]
    exact List.filter_congr hsesspt
  have hcs : ∀ s ∈ (userView st uid).sessions.filter (fun s => s.location_id == l.id),
      st.catches.filter (fun c => c.session_id == s.id) =
      (userView st uid).catches.filter (fun c => c.session_id == s.id) := by
    intro s hsmem
    have hs1 := mem_userSessions st uid s (List.mem_filter.mp hsmem).1
    show _ = (st.catches.filter (ownedCatchB st uid)).filter
      (fun c => c.session_id == s.id)
    rw [List.filter_filter]
    apply List.filter_congr
    intro c _
    cases hcs0 : (c.session_id == s.id)
    · rfl
    · have howc : ownedCatchB st uid c = true := by
        unfold ownedCatchB
        apply List.any_eq_true.mpr
        refine ⟨s, hs1.1, ?_⟩
        simp [(by simpa using hcs0 : c.session_id = s.id), hs1.2]
      simp [howc]
  unfold locRows viewLocRows
  rw [hss]
  cases hemp : ((userView st uid).sessions.filter (fun s => s.location_id == l.id)).isEmpty
  · simp only [hemp, Bool.false_eq_true, if_false]
    apply flatMap_congr
    intro s hsmem
    rw [hcs s hsmem]
  · simp only [hemp, if_true]

theorem locationStatsData_eq (u : Nat) (st1 st2 : Store) (h1 : WF st1) (h2 : WF st2)
    (hv : userView st1 u = userView st2 u) :
    locationStatsData st1 u = locationStatsData st2 u := by
  have hloc : userLocations st1 u = userLocations st2 u := congrArg Store.locations hv
  unfold locationStatsData
  rw [hloc]
  congr 1
  apply List.map_congr_left
  intro l hl2
  have hl1 : l ∈ userLocations st1 u := by rw [hloc]; exact hl2
  unfold locEntry
  rw [locRows_eq_view st1 u h1 l hl1, locRows_eq_view st2 u h2 l hl2, hv]

theorem any_congr_mem {α : Type} (p q : α → Bool) (l : List α)
    (h : ∀ a ∈ l, p a = q a) : l.any p = l.any q := by
  induction l with
  | nil => rfl
  | cons x xs ih =>
    rw [List.any_cons, List.any_cons, h x (List.mem_cons_self x xs),
      ih (fun a ha => h a (List.mem_cons_of_mem x ha))]

theorem update_session_other_view (st : Store) (u sid : Nat) (d : SessionUpdateData)
    (v : Nat) (hvu : v ≠ u) :
    userView (update_session st u sid d).2 v = userView st v := by
  unfold update_session
  cases hf : st.sessions.find? (fun s => s.id == sid && s.user_id == u) with
  | none => rfl
  | some s =>
    simp only
    split
    · rfl
    · have hfp := List.find?_some hf
      have hsid : s.id = sid := by simpa using (Bool.and_eq_true_iff.mp hfp).1
      have hsu : s.user_id = u := by simpa using (Bool.and_eq_true_iff.mp hfp).2
      have hpres : ∀ t : Session,
          ((if t.id == sid && t.user_id == u then updatedSession s d else t).id = t.id ∧
            (if t.id == sid && t.user_id == u then updatedSession s d else t).user_id = t.user_id) := by
        intro t
        by_cases hcond : (t.id == sid && t.user_id == u) = true
        · rw [if_pos hcond]
          obtain ⟨hc1, hc2⟩ := Bool.and_eq_true_iff.mp hcond
          constructor
          · rw [updatedSession_id, hsid]
            exact (by simpa using hc1 : t.id = sid).symm
          · rw [updatedSession_user, hsu]
            exact (by simpa using hc2 : t.user_id = u).symm
        · rw [if_neg hcond]
          exact ⟨rfl, rfl⟩
      unfold userView userSessions userLocations
      simp only
      congr 1
      · -- sessions of other users are untouched
        apply filter_map_id
        intro t ht
        constructor
        · intro htv
          have htu : (t.user_id == u) = false := by
            have : t.user_id = v := by simpa using htv
            simp [this, hvu]
          rw [if_neg (by simp [htu])]
        · rw [(hpres t).2]
      · -- catch ownership for other users is untouched
        apply List.filter_congr
        intro c _
        unfold ownedCatchB
        simp only
        rw [List.any_map]
        apply any_congr_mem
        intro t ht
        show ((if t.id == sid && t.user_id == u then updatedSession s d else t).id == c.session_id &&
          (if t.id == sid && t.user_id == u then updatedSession s d else t).user_id == v) =
          (t.id == c.session_id && t.user_id == v)
        rw [(hpres t).1, (hpres t).2]

theorem delete_session_other_view (st : Store) (u sid v : Nat)
    (hvu : v ≠ u) (hwf : WF st) :
    userView (delete_session st u sid).2 v = userView st v := by
  unfold delete_session
  cases hf : st.sessions.find? (fun s => s.id == sid && s.user_id == u) with
  | none => rfl
  | some s =>
    simp only
    obtain ⟨hnl, hns, hown⟩ := hwf
    have hfp := List.find?_some hf
    have hsid : s.id = sid := by simpa using (Bool.and_eq_true_iff.mp hfp).1
    have hsu : s.user_id = u := by simpa using (Bool.and_eq_true_iff.mp hfp).2
    have hsm : s ∈ st.sessions := List.mem_of_find?_eq_some hf
    unfold userView userSessions userLocations
    simp only
    congr 1
    · -- other users' sessions survive the delete
      rw [List.filter_filter]
      apply List.filter_congr
      intro t ht
      cases htv : (t.user_id == v)
      · rfl
      · have hkeep : (!(t.id == sid && t.user_id == u)) = true := by
          have htv' : t.user_id = v := by simpa using htv
          simp only [Bool.not_eq_true', Bool.and_eq_false_iff]
          right
          simp [htv', hvu]
        simp [hkeep]
    · -- other users' catches and their ownership survive the delete
      rw [List.filter_filter]
      apply List.filter_congr
      intro c _
      cases ho : ownedCatchB st v c
      · -- not owned in st: not owned in the smaller session list either
        have ho' : (st.sessions.filter (fun t => !(t.id == sid && t.user_id == u))).any
            (fun t => t.id == c.session_id && t.user_id == v) = false := by
          cases hcontra : (st.sessions.filter (fun t => !(t.id == sid && t.user_id == u))).any
              (fun t => t.id == c.session_id && t.user_id == v)
          · rfl
          · exfalso
            obtain ⟨t, htm, htp⟩ := List.any_eq_true.mp hcontra
            have htm' : t ∈ st.sessions := (List.mem_filter.mp htm).1
            have : ownedCatchB st v c = true := by
              unfold ownedCatchB
              exact List.any_eq_true.mpr ⟨t, htm', htp⟩
            rw [ho] at this
            cases this
        show (ownedCatchB _ v c && _) = _
        unfold ownedCatchB
        simp only
        rw [ho']
        rfl
      · -- owned in st by user v: the owning session is not the deleted one
        obtain ⟨t, htm, htp⟩ := List.any_eq_true.mp (by
          have := ho
          unfold ownedCatchB at this
          exact this)
        obtain ⟨htid, htu⟩ := Bool.and_eq_true_iff.mp htp
        have htid' : t.id = c.session_id := by simpa using htid
        have htu' : t.user_id = v := by simpa using htu
        have htns : t ≠ s := by
          intro he
          rw [he] at htu'
          rw [hsu] at htu'
          exact hvu htu'.symm
        have hcsid : (c.session_id == s.id) = false := by
          cases hcs0 : (c.session_id == s.id)
          · rfl
          · exfalso
            have : t = s := List.inj_on_of_nodup_map hns htm hsm
              (by rw [htid']; exact (by simpa using hcs0 : c.session_id = s.id))
            exact htns this
        have hkeept : t ∈ st.sessions.filter (fun x => !(x.id == sid && x.user_id == u)) := by
          apply List.mem_filter.mpr
          refine ⟨htm, ?_⟩
          simp only [Bool.not_eq_true', Bool.and_eq_false_iff]
          right
          simp [htu', hvu]
        have ho' : (st.sessions.filter (fun x => !(x.id == sid && x.user_id == u))).any
            (fun x => x.id == c.session_id && x.user_id == v) = true :=
          List.any_eq_true.mpr ⟨t, hkeept, htp⟩
        show (ownedCatchB _ v c && !(c.session_id == s.id)) = _
        unfold ownedCatchB
        simp only
        rw [ho']
        simp [hcsid]

theorem delete_location_other_view (st : Store) (u lid v : Nat) (hvu : v ≠ u) :
    userView (delete_location st u lid).2 v = userView st v := by
  unfold delete_location
  cases hf : st.locations.find? (fun l => l.id == lid && l.user_id == u) with
  | none => rfl
  | some l =>
    simp only
    split
    · rfl
    · unfold userView userSessions userLocations
      simp only
      congr 1
      rw [List.filter_filter]
      apply List.filter_congr
      intro x hx
      cases hxv : (x.user_id == v)
      · rfl
      · have hkeep : (!(x.id == lid && x.user_id == u)) = true := by
          simp only [Bool.not_eq_true', Bool.and_eq_false_iff]
          right
          simp [(by simpa using hxv : x.user_id = v), hvu]
        simp [hkeep]

/-! ## C9 -/

/-- C9: owner-scoping. For well-formed stores (unique primary keys, every
session's location owned by the session's user — invariants the API
maintains), every embedded protected read or statistics operation returns
the same result on any two stores that agree on the authenticated user's
rows (their locations, their sessions, and the catches of their sessions),
so its result depends only on rows the user owns; and the mutating
session operations leave every other user's rows (and hence everything any
other user can observe) unchanged. -/
theorem c9_owner_scoping :
    (∀ u st1 st2, WF st1 → WF st2 → userView st1 u = userView st2 u →
      (∀ cid, get_catch st1 u cid = get_catch st2 u cid) ∧
      get_overview_stats st1 u = get_overview_stats st2 u ∧
      (∀ lim, get_bait_stats st1 u lim = get_bait_stats st2 u lim) ∧
      (∀ now, get_monthly_stats st1 u now = get_monthly_stats st2 u now) ∧
      get_location_stats st1 u = get_location_stats st2 u) ∧
    (∀ u v st sid d, v ≠ u →
      userView (update_session st u sid d).2 v = userView st v) ∧
    (∀ u v st sid, v ≠ u → WF st →
      userView (delete_session st u sid).2 v = userView st v) ∧
    (∀ u v st lid, v ≠ u →
      userView (delete_location st u lid).2 v = userView st v) := by
  refine ⟨?_, ?_, ?_, ?_⟩
  · intro u st1 st2 h1 h2 hv
    refine ⟨fun cid => get_catch_eq u st1 st2 hv cid, ?_, fun lim => get_bait_stats_eq u st1 st2 hv lim,
      fun now => ?_, ?_⟩
    · show Res.ok 200 (overviewData st1 u) = Res.ok 200 (overviewData st2 u)
      rw [overviewData_eq u st1 st2 h1 h2 hv]
    · show Res.ok 200 (monthlyData st1 u now) = Res.ok 200 (monthlyData st2 u now)
      rw [monthlyData_eq u st1 st2 hv now]
    · show Res.ok 200 (locationStatsData st1 u) = Res.ok 200 (locationStatsData st2 u)
      rw [locationStatsData_eq u st1 st2 h1 h2 hv]
  · intro u v st sid d hvu
    exact update_session_other_view st u sid d v hvu
  · intro u v st sid hvu hwf
    exact delete_session_other_view st u sid v hvu hwf
  · intro u v st lid hvu
    exact delete_location_other_view st u lid v hvu

/-- Rows of a second user (id 9) for the C9 witness. -/
def otherLoc : Location :=
  { id := 20, user_id := 9, name := "Rio Verde", latitude := 3, longitude := 4,
    description := none }

def otherSession : Session :=
  { id := 21, user_id := 9, location_id := 20, date := ⟨2024, 6, 1⟩,
    start_time := ⟨6, 0⟩, end_time := ⟨7, 0⟩, duration_minutes := some 60,
    weather_conditions := none, temperature_celsius := none, notes := none }

def otherCatch : Catch :=
  { id := 22, session_id := 21, species := "Pintado", weight_kg := none,
    length_cm := none, bait_used := none, released := true, photo_url := none }

/-- A second store agreeing with `sampleStore` on user 7's rows but holding
another user's data as well. -/
def otherStore : Store :=
  { locations := [sampleLoc, otherLoc],
    sessions := [sampleSession, otherSession],
    catches := [sampleCatch, otherCatch] }

/-- Witness for C9: `sampleStore` and `otherStore` agree on user 7's rows,
so user 7's overview is identical on both, and deleting user 7's session 3
leaves user 9's view of `otherStore` unchanged. -/
theorem c9_owner_scoping_witness :
    get_overview_stats sampleStore 7 = get_overview_stats otherStore 7 ∧
    userView (delete_session otherStore 7 3).2 9 = userView otherStore 9 :=
  ⟨((c9_owner_scoping.1 7 sampleStore otherStore (by decide) (by decide)
      (by decide)).2.1),
   c9_owner_scoping.2.2.1 7 9 otherStore 3 (by decide) (by decide)⟩
